import Mathlib

/-!
Verification of `awslabs/cloudtrail_mcp_server/tools.py` (the CloudTrail MCP
server tools). The definitions below are a shallow embedding of the Python
source: `_format_field_value` and `_process_query_results` (result
normalization), the polling loop of `lake_query`, the request assembly of
`lookup_events`, and the per-store detail merge of `list_event_data_stores`.

Modelling conventions:
- Python values are the inductive `PyVal`; machine floats are represented by
  the exact decimal value of the parsed literal, as a pair
  `mantissa * 10 ^ exp10` of integers (no claim inspects a float's numeric
  value, only which constructor is produced, so IEEE-754 rounding is out of
  model scope).
- Code that can raise is embedded in `Except String`; total Python code is a
  total Lean function.
- String operations (`lower`, `strip`, `in`) are modelled over ASCII, which
  covers every string the claims quantify over.
- `datetime.fromisoformat` / `datetime.isoformat` are stdlib collaborators,
  modelled on the canonical `YYYY-MM-DD[sep]HH:MM[:SS[.ffffff]][+HH:MM]`
  grammar that every CPython version accepts (offsets restricted to whole
  minutes, which is the only shape `isoformat` round-trips here; the
  `inf`/`nan` float literals are unreachable in `_format_field_value`'s float
  branch because they contain neither a dot nor an exponent marker, so the
  float grammar omits them).
-/

/-! ## Python string primitives (ASCII model) -/

/-- Python whitespace for `str.strip()`, ASCII part: space, tab, LF, CR, VT, FF. -/
def pyIsSpace (c : Char) : Bool :=
  c = ' ' || c = '\t' || c = '\n' || c = '\r' || c = '\x0b' || c = '\x0c'

/-- Drop leading and trailing Python whitespace from a character list. -/
def stripWsList (cs : List Char) : List Char :=
  ((cs.dropWhile pyIsSpace).reverse.dropWhile pyIsSpace).reverse

/-- Model of Python `str.strip()` (ASCII whitespace). -/
def pyStrip (s : String) : String :=
  String.mk (stripWsList s.toList)

/-- Model of Python `str.lower()` (ASCII case mapping). -/
def pyLower (s : String) : String :=
  String.mk (s.toList.map Char.toLower)

/-- The source computes `value_lower = value.lower().strip()`. -/
def pyValueLower (s : String) : String :=
  pyStrip (pyLower s)

/-- Model of Python `c in s` for a single character `c`. -/
def pyContains (s : String) (c : Char) : Bool :=
  s.toList.contains c

/-- Model of Python `s[:n]`. -/
def pyTake (s : String) (n : Nat) : String :=
  String.mk (s.toList.take n)

/-- Model of `value.replace('Z', '+00:00')` from `_format_field_value`
(replaces every occurrence of `Z`, as Python `str.replace` does). -/
def pyReplaceZ (s : String) : String :=
  String.mk (s.toList.foldr
    (fun c acc => if c = 'Z' then '+' :: '0' :: '0' :: ':' :: '0' :: '0' :: acc else c :: acc) [])

/-! ## Python numeric literal parsing (`int(s)` and `float(s)`) -/

/-- Numeric value of a digit run (callers ensure the characters are digits). -/
def digitsToNat (cs : List Char) : Nat :=
  cs.foldl (fun a c => 10 * a + (c.toNat - 48)) 0

/-- No two adjacent underscores in a character list. -/
def noAdjacentUnderscore : List Char → Bool
  | [] => true
  | [_] => true
  | a :: b :: rest => !(a = '_' && b = '_') && noAdjacentUnderscore (b :: rest)

/-- Python digit-part grammar `digit (("_")? digit)*`: nonempty, starts and
ends with a digit, only digits and single interior underscores. -/
def validDigitsU (cs : List Char) : Bool :=
  !cs.isEmpty &&
  cs.all (fun c => c.isDigit || c = '_') &&
  (match cs.head? with | some c => c.isDigit | _ => false) &&
  (match cs.getLast? with | some c => c.isDigit | _ => false) &&
  noAdjacentUnderscore cs

/-- Value of a digit part, ignoring underscores. -/
def digitsUVal (cs : List Char) : Nat :=
  digitsToNat (cs.filter (fun c => c ≠ '_'))

/-- Model of Python `int(s)` on a string: optional surrounding whitespace,
optional sign, then a digit part; anything else raises `ValueError`,
modelled as `none`. -/
def pyIntOfString (s : String) : Option Int :=
  let cs := stripWsList s.toList
  match cs with
  | '+' :: rest => if validDigitsU rest then some (digitsUVal rest) else none
  | '-' :: rest => if validDigitsU rest then some (-(digitsUVal rest : Int)) else none
  | _ => if validDigitsU cs then some (digitsUVal cs) else none

/-- Exact decimal value of a parsed float literal: `mantissa * 10 ^ exp10`. -/
structure DecFloat where
  mantissa : Int
  exp10 : Int
deriving DecidableEq, BEq

/-- Mantissa of a float literal: `digitpart`, `digitpart "." [digitpart]`, or
`"." digitpart`; returns the integer digit string and its decimal shift. -/
def pyFloatMantissa (cs : List Char) : Option DecFloat :=
  let ip := cs.takeWhile (fun c => c ≠ '.')
  let rest := cs.dropWhile (fun c => c ≠ '.')
  match rest with
  | [] => if validDigitsU ip then some ⟨(digitsUVal ip : Int), 0⟩ else none
  | '.' :: fp =>
    if fp.isEmpty then
      if validDigitsU ip then some ⟨(digitsUVal ip : Int), 0⟩ else none
    else if ip.isEmpty then
      if validDigitsU fp then
        some ⟨(digitsUVal fp : Int), -((fp.filter (fun c => c ≠ '_')).length : Int)⟩
      else none
    else
      if validDigitsU ip && validDigitsU fp then
        some ⟨(digitsUVal ip : Int) * (10 ^ (fp.filter (fun c => c ≠ '_')).length : Nat) +
                (digitsUVal fp : Int),
              -((fp.filter (fun c => c ≠ '_')).length : Int)⟩
      else none
  | _ => none

/-- Exponent part of a float literal after the `e`/`E` marker. -/
def pyFloatExp (cs : List Char) : Option Int :=
  match cs with
  | '+' :: rest => if validDigitsU rest then some (digitsUVal rest) else none
  | '-' :: rest => if validDigitsU rest then some (-(digitsUVal rest : Int)) else none
  | _ => if validDigitsU cs then some (digitsUVal cs) else none

/-- Unsigned part of Python `float(s)`: mantissa with optional exponent. -/
def pyFloatUnsigned (cs : List Char) : Option DecFloat :=
  let mant := cs.takeWhile (fun c => c ≠ 'e' && c ≠ 'E')
  let expPart := cs.dropWhile (fun c => c ≠ 'e' && c ≠ 'E')
  match expPart with
  | [] => pyFloatMantissa mant
  | _ :: ecs =>
    match pyFloatMantissa mant, pyFloatExp ecs with
    | some m, some e => some ⟨m.mantissa, m.exp10 + e⟩
    | _, _ => none

/-- Model of Python `float(s)`: optional surrounding whitespace, optional
sign, mantissa, optional exponent. Failure (`ValueError`) is `none`. -/
def pyFloatOfString (s : String) : Option DecFloat :=
  let cs := stripWsList s.toList
  match cs with
  | '+' :: rest => pyFloatUnsigned rest
  | '-' :: rest => (pyFloatUnsigned rest).map (fun q => ⟨-q.mantissa, q.exp10⟩)
  | _ => pyFloatUnsigned cs

/-! ## Datetime model (`datetime.fromisoformat` / `datetime.isoformat`) -/

/-- An aware-or-naive datetime; `tzOffsetMinutes` is the UTC offset in
minutes when a `+HH:MM` / `-HH:MM` offset is present. -/
structure PyDateTime where
  year : Nat
  month : Nat
  day : Nat
  hour : Nat
  minute : Nat
  second : Nat
  microsecond : Nat
  tzOffsetMinutes : Option Int
deriving DecidableEq, BEq

/-- Gregorian leap year. -/
def isLeapYear (y : Nat) : Bool :=
  y % 4 = 0 && (y % 100 ≠ 0 || y % 400 = 0)

/-- Days in a month of a given year. -/
def daysInMonth (y m : Nat) : Nat :=
  if m = 2 then (if isLeapYear y then 29 else 28)
  else if m = 4 || m = 6 || m = 9 || m = 11 then 30
  else 31

/-- Validate the time fields and parse an optional trailing `±HH:MM` offset. -/
def finishDateTime (y mo d hh mm ss us : Nat) (rest : List Char) : Option PyDateTime :=
  let mk := fun (off : Option Int) =>
    if hh ≤ 23 && mm ≤ 59 && ss ≤ 59 then some ⟨y, mo, d, hh, mm, ss, us, off⟩ else none
  match rest with
  | [] => mk Option.none
  | sign :: o1 :: o2 :: ':' :: o3 :: o4 :: [] =>
    if (sign = '+' || sign = '-') && [o1, o2, o3, o4].all Char.isDigit then
      let oh := digitsToNat [o1, o2]
      let om := digitsToNat [o3, o4]
      if oh ≤ 23 && om ≤ 59 then
        mk (some ((if sign = '+' then 1 else -1) * ((oh * 60 + om : Nat) : Int)))
      else none
    else none
  | _ => none

/-- Parse the time-of-day portion `HH:MM[:SS[.ffffff]][±HH:MM]`. -/
def parseIsoTime (y mo d : Nat) (cs : List Char) : Option PyDateTime :=
  match cs with
  | h1 :: h2 :: ':' :: n1 :: n2 :: rest =>
    if [h1, h2, n1, n2].all Char.isDigit then
      let hh := digitsToNat [h1, h2]
      let mm := digitsToNat [n1, n2]
      match rest with
      | ':' :: s1 :: s2 :: rest2 =>
        if s1.isDigit && s2.isDigit then
          let ss := digitsToNat [s1, s2]
          match rest2 with
          | '.' :: rest3 =>
            let frac := rest3.takeWhile Char.isDigit
            let rest4 := rest3.dropWhile Char.isDigit
            if 1 ≤ frac.length && frac.length ≤ 6 then
              finishDateTime y mo d hh mm ss (digitsToNat frac * 10 ^ (6 - frac.length)) rest4
            else none
          | _ => finishDateTime y mo d hh mm ss 0 rest2
        else none
      | _ => finishDateTime y mo d hh mm 0 0 rest
    else none
  | _ => none

/-- Model of `datetime.fromisoformat`: `YYYY-MM-DD`, then optionally a single
separator character and a time-of-day. Field ranges are validated as CPython
does (year at least 1, month 1-12, day bounded by the month's length). -/
def parseIso (s : String) : Option PyDateTime :=
  match s.toList with
  | y1 :: y2 :: y3 :: y4 :: '-' :: m1 :: m2 :: '-' :: d1 :: d2 :: rest =>
    if [y1, y2, y3, y4, m1, m2, d1, d2].all Char.isDigit then
      let y := digitsToNat [y1, y2, y3, y4]
      let mo := digitsToNat [m1, m2]
      let d := digitsToNat [d1, d2]
      if 1 ≤ y && 1 ≤ mo && mo ≤ 12 && 1 ≤ d && d ≤ daysInMonth y mo then
        match rest with
        | [] => some ⟨y, mo, d, 0, 0, 0, 0, Option.none⟩
        | _ :: timeCs => parseIsoTime y mo d timeCs
      else none
    else none
  | _ => none

/-- Left-pad the decimal rendering of `n` with zeros to width `w`. -/
def padNum (w n : Nat) : String :=
  String.mk (List.replicate (w - (toString n).length) '0') ++ toString n

/-- Model of `datetime.isoformat()`: `YYYY-MM-DDTHH:MM:SS`, microseconds
printed as six digits only when nonzero, then the `±HH:MM` offset when the
datetime is aware. -/
def isoformat (dt : PyDateTime) : String :=
  padNum 4 dt.year ++ "-" ++ padNum 2 dt.month ++ "-" ++ padNum 2 dt.day ++ "T" ++
  padNum 2 dt.hour ++ ":" ++ padNum 2 dt.minute ++ ":" ++ padNum 2 dt.second ++
  (if dt.microsecond ≠ 0 then "." ++ padNum 6 dt.microsecond else "") ++
  (match dt.tzOffsetMinutes with
   | Option.none => ""
   | some off =>
     (if off < 0 then "-" else "+") ++ padNum 2 (off.natAbs / 60) ++ ":" ++ padNum 2 (off.natAbs % 60))

/-! ## Python values -/

/-- A Python value as it appears in CloudTrail result grids and request maps. -/
inductive PyVal where
  | none
  | bool (b : Bool)
  | int (n : Int)
  | float (q : DecFloat)
  | str (s : String)
  | datetime (dt : PyDateTime)
  | list (xs : List PyVal)
  | dict (kvs : List (PyVal × PyVal))

/-- Python truthiness (`bool(v)`) for the modelled values. -/
def pyTruthy : PyVal → Bool
  | .none => false
  | .bool b => b
  | .int n => n ≠ 0
  | .float q => q.mantissa ≠ 0
  | .str s => s ≠ ""
  | .datetime _ => true
  | .list xs => !xs.isEmpty
  | .dict kvs => !kvs.isEmpty

/-- Whether a value is `None`. -/
def pyIsNone : PyVal → Bool
  | .none => true
  | _ => false

/-! ## Result normalization: `_format_field_value` -/

/-- The number-detection tail of `_format_field_value`: try `int(value)` when
the string has neither a dot nor an `e`/`E` (checked on the lowercased form),
otherwise try `float(value)`; when the chosen parse raises, fall through and
return the original string. -/
def numericRule (value : String) (value_lower : String) : PyVal :=
  if pyContains value '.' = false ∧ pyContains value_lower 'e' = false then
    match pyIntOfString value with
    | some n => .int n
    | Option.none => .str value
  else
    match pyFloatOfString value with
    | some q => .float q
    | Option.none => .str value

/-- Shallow embedding of `CloudTrailTools._format_field_value`: `None` passes
through, strings go through the boolean / null / ISO-timestamp / numeric
detection chain in that order, and every other value is returned as-is. -/
def formatFieldValue (value : PyVal) : PyVal :=
  match value with
  | .none => .none
  | .str s =>
    if pyValueLower s = "true" ∨ pyValueLower s = "false" then
      .bool (pyValueLower s == "true")
    else if pyValueLower s = "null" ∨ pyValueLower s = "none" ∨ pyValueLower s = "" then
      .none
    else if 19 ≤ s.length ∧ (pyContains s 'T' = true ∨ pyContains (pyTake s 10) '-' = true) then
      match parseIso (pyReplaceZ s) with
      | some dt => .str (isoformat dt)
      | Option.none => numericRule s (pyValueLower s)
    else
      numericRule s (pyValueLower s)
  | v => v

/-! ## Result normalization: `_process_query_results` -/

/-- Numeric view of a value for Python cross-type key equality
(`True == 1`, `1 == 1.0`). -/
def pyNumView : PyVal → Option DecFloat
  | .bool b => some ⟨if b then 1 else 0, 0⟩
  | .int n => some ⟨n, 0⟩
  | .float q => some q
  | _ => Option.none

/-- Equality of two exact decimals. -/
def decFloatEq (a b : DecFloat) : Bool :=
  if b.exp10 ≤ a.exp10 then a.mantissa * 10 ^ (a.exp10 - b.exp10).toNat == b.mantissa
  else a.mantissa == b.mantissa * 10 ^ (b.exp10 - a.exp10).toNat

/-- Python `==` as used on dictionary keys. Numbers (including booleans)
compare by value across types; strings, `None` and datetimes compare
structurally; containers are unhashable in Python and therefore never occur
as dictionary keys, so comparisons involving them yield `false` here exactly
as `'field' == [1]` does in Python. -/
def keyEq (a b : PyVal) : Bool :=
  match pyNumView a, pyNumView b with
  | some x, some y => decFloatEq x y
  | some _, Option.none => false
  | Option.none, some _ => false
  | Option.none, Option.none =>
    match a, b with
    | .str x, .str y => x == y
    | .none, .none => true
    | .datetime x, .datetime y => x == y
    | _, _ => false

/-- Python `k in d` on a dictionary. -/
def dictHasKey (kvs : List (PyVal × PyVal)) (k : PyVal) : Bool :=
  kvs.any (fun kv => keyEq kv.1 k)

/-- Python `d[k]` lookup (keys of a real Python dict are unique). -/
def dictGet (kvs : List (PyVal × PyVal)) (k : PyVal) : Option PyVal :=
  (kvs.find? (fun kv => keyEq kv.1 k)).map (fun kv => kv.2)

/-- Python `d[k] = v`: replace the value of an existing equal key (keeping
the original key object and position) or append a new binding. -/
def dictSet (kvs : List (PyVal × PyVal)) (k v : PyVal) : List (PyVal × PyVal) :=
  match kvs with
  | [] => [(k, v)]
  | kv :: rest => if keyEq kv.1 k then (kv.1, v) :: rest else kv :: dictSet rest k v

/-- Hashable values can be dictionary keys; Python lists and dicts cannot. -/
def pyIsHashable : PyVal → Bool
  | .list _ => false
  | .dict _ => false
  | _ => true

/-- The keep-condition of `_process_query_results` on one field descriptor:
`isinstance(field_info, dict) and 'field' in field_info and 'value' in
field_info`. -/
def keptDescr : PyVal → Bool
  | .dict kvs => dictHasKey kvs (.str "field") && dictHasKey kvs (.str "value")
  | _ => false

/-- The `field_info['field']` of a kept descriptor. -/
def descrFieldName : PyVal → PyVal
  | .dict kvs => (dictGet kvs (.str "field")).getD .none
  | _ => .none

/-- The `field_info['value']` of a kept descriptor. -/
def descrValue : PyVal → PyVal
  | .dict kvs => (dictGet kvs (.str "value")).getD .none
  | _ => .none

/-- The inner loop of `_process_query_results`: fold the field descriptors of
one row into `processed_row`, skipping descriptors that fail the
keep-condition; assigning with an unhashable field name raises `TypeError`. -/
def processRowGo (acc : List (PyVal × PyVal)) : List PyVal → Except String (List (PyVal × PyVal))
  | [] => .ok acc
  | field_info :: rest =>
    if keptDescr field_info then
      if pyIsHashable (descrFieldName field_info) then
        processRowGo (dictSet acc (descrFieldName field_info) (formatFieldValue (descrValue field_info))) rest
      else .error "TypeError: unhashable type"
    else processRowGo acc rest

/-- The outer loop of `_process_query_results`: rows that are falsy or not
lists are skipped; a nonempty `processed_row` is appended to the output. -/
def processRowsGo (acc : List PyVal) : List PyVal → Except String (List PyVal)
  | [] => .ok acc
  | row :: rest =>
    match row with
    | .list items =>
      if items.isEmpty then processRowsGo acc rest
      else
        match processRowGo [] items with
        | .error e => .error e
        | .ok pr => processRowsGo (if pr.isEmpty then acc else acc ++ [.dict pr]) rest
    | _ => processRowsGo acc rest

/-- Python `for x in v`: lists yield elements, strings yield one-character
strings, dicts yield keys; every other value raises `TypeError`. -/
def pyIter : PyVal → Except String (List PyVal)
  | .list xs => .ok xs
  | .str s => .ok (s.toList.map (fun c => .str (String.mk [c])))
  | .dict kvs => .ok (kvs.map (fun kv => kv.1))
  | _ => .error "TypeError: not iterable"

/-- Shallow embedding of `CloudTrailTools._process_query_results`. A falsy
argument returns `[]`; otherwise the argument is iterated as Python would,
and the result is the list of nonempty processed rows. `Except.error`
models an uncaught Python exception escaping the method. -/
def processQueryResults (raw_results : PyVal) : Except String PyVal :=
  if pyTruthy raw_results = false then .ok (.list [])
  else
    match pyIter raw_results with
    | .error e => .error e
    | .ok rows =>
      match processRowsGo [] rows with
      | .error e => .error e
      | .ok processed => .ok (.list processed)

/-- A field descriptor that would be kept has a hashable field name. -/
def hashOKDescr (field_info : PyVal) : Bool :=
  !keptDescr field_info || pyIsHashable (descrFieldName field_info)

/-- Every descriptor of a list row has a hashable field name when kept;
non-list rows are skipped before any assignment, hence unconstrained. -/
def hashOKRow : PyVal → Bool
  | .list items => items.all hashOKDescr
  | _ => true

/-! ## Query poller: the polling loop of `lake_query` -/

/-- Relevant parts of a `describe_query` response. -/
structure StatusResponse where
  queryStatus : String
  queryStatistics : Option PyVal
  errorMessage : Option String

/-- Relevant parts of a `get_query_results` response: the raw rows (absent
key modelled as `none`, defaulted to `[]` by the code) and the opaque
continuation token. -/
structure ResultsResponse where
  queryResultRows : Option (List PyVal)
  nextToken : Option String

/-- The remote calls `lake_query` performs after starting the query: how many
`describe_query` status fetches, the `MaxQueryResults` argument of each
`get_query_results` call, and the total time spent in `time.sleep`. -/
structure LakeTrace where
  statusFetches : Nat
  resultFetches : List Nat
  sleptTime : Nat

/-- State of the poll loop when it stops. -/
structure PollOutcome where
  fetches : Nat
  slept : Nat
  queryStatus : String
  resp : StatusResponse

/-- The terminal-status check `query_status in ['FINISHED', 'FAILED',
'CANCELLED', 'TIMED_OUT']`. -/
def isTerminalStatus (s : String) : Bool :=
  s == "FINISHED" || s == "FAILED" || s == "CANCELLED" || s == "TIMED_OUT"

/-- The `while elapsed_time < max_wait_time` loop of `lake_query` with
`max_wait_time = 300` and `poll_interval = 2`. Each iteration fetches the
next status (`statuses n` is the result of the n-th `describe_query` call),
breaks on a terminal status, and otherwise sleeps 2 units. Since
`elapsed_time` is `2 * iterations`, the loop guard `elapsed_time < 300` is
`iterations < 150`; `fuel` counts the iterations the guard still allows, so
the loop starts with `fuel = 150`. -/
def lakePollGo (statuses : Nat → StatusResponse) :
    Nat → Nat → Nat → String → StatusResponse → PollOutcome
  | 0, f, s, qs, resp => ⟨f, s, qs, resp⟩
  | fuel + 1, f, s, _, _ =>
    let r := statuses f
    if isTerminalStatus r.queryStatus then ⟨f + 1, s, r.queryStatus, r⟩
    else lakePollGo statuses fuel (f + 1) (s + 2) r.queryStatus r

/-- The poll phase of `lake_query`: `query_status` starts as `'RUNNING'` and
`status_response` as the empty dict (its fields read as absent). -/
def lakeQueryPoll (statuses : Nat → StatusResponse) : PollOutcome :=
  lakePollGo statuses 150 0 0 "RUNNING" ⟨"", Option.none, Option.none⟩

/-- The `QueryResult` model as used by `lake_query` (fields not passed at a
construction site default to `None`). -/
structure QueryResultModel where
  query_id : String
  query_status : String
  query_statistics : Option PyVal
  query_result_rows : Option (List PyVal)
  next_token : Option String
  error_message : Option String

/-- Shallow embedding of `lake_query` after the query has been started:
poll until terminal or budget exhaustion; on `'FINISHED'` fetch one page of
results with `MaxQueryResults=1000`, otherwise surface the error message.
Returns the remote-call trace together with the `QueryResult`. -/
def lakeQueryRun (query_id : String) (statuses : Nat → StatusResponse)
    (results : ResultsResponse) : LakeTrace × QueryResultModel :=
  let p := lakeQueryPoll statuses
  if p.queryStatus = "FINISHED" then
    (⟨p.fetches, [1000], p.slept⟩,
     ⟨query_id, p.queryStatus, p.resp.queryStatistics,
      some (results.queryResultRows.getD []), results.nextToken, Option.none⟩)
  else
    (⟨p.fetches, [], p.slept⟩,
     ⟨query_id, p.queryStatus, p.resp.queryStatistics,
      Option.none, Option.none, p.resp.errorMessage⟩)

/-! ## Parameter sanitizer and string-keyed maps -/

/-- Lookup in a string-keyed parameter map. -/
def sGet (kvs : List (String × PyVal)) (k : String) : Option PyVal :=
  (kvs.find? (fun kv => kv.1 == k)).map (fun kv => kv.2)

/-- Lookup with a default, Python `d.get(k, default)`. -/
def sGetD (kvs : List (String × PyVal)) (k : String) (d : PyVal) : PyVal :=
  (sGet kvs k).getD d

/-- Python `d[k] = v` on a string-keyed map. -/
def sSet (kvs : List (String × PyVal)) (k : String) (v : PyVal) : List (String × PyVal) :=
  match kvs with
  | [] => [(k, v)]
  | kv :: rest => if kv.1 == k then (kv.1, v) :: rest else kv :: sSet rest k v

/-- Modelled from the spec: `remove_null_values` (from `common.py`, which is
not under `src/`) strips entries whose value is null from a request map
before submission. -/
def removeNullValues (kvs : List (String × PyVal)) : List (String × PyVal) :=
  kvs.filter (fun kv => !(pyIsNone kv.2))

/-! ## Tool facade: `lookup_events` parameter assembly -/

/-- Modelled from the spec: `validate_max_results` (from `common.py`, which
is not under `src/`) clamps the requested result count into
`[1, max_allowed]` and substitutes `default` when the request is absent. -/
def validate_max_results (max_results : Option Int) (default max_allowed : Int) : Int :=
  match max_results with
  | Option.none => default
  | some v => min (max v 1) max_allowed

/-- Python truthiness of an `Optional[str]` parameter: present and nonempty. -/
def pyTruthyOptStr : Option String → Bool
  | Option.none => false
  | some s => !(s == "")

/-- The `lookup_params` dict built by `lookup_events` and passed through
`remove_null_values` to the `lookup_events` API call: `StartTime`, `EndTime`
and the clamped `MaxResults` always; `LookupAttributes` exactly when both
`attribute_key` and `attribute_value` are truthy. -/
def lookupRequest (start_dt end_dt : PyDateTime) (attribute_key attribute_value : Option String)
    (max_results : Option Int) : List (String × PyVal) :=
  let mr := validate_max_results max_results 10 50
  let base := [("StartTime", PyVal.datetime start_dt), ("EndTime", PyVal.datetime end_dt),
               ("MaxResults", PyVal.int mr)]
  let ps :=
    if pyTruthyOptStr attribute_key && pyTruthyOptStr attribute_value then
      base ++ [("LookupAttributes",
        PyVal.list [PyVal.dict [(.str "AttributeKey", .str (attribute_key.getD "")),
                                (.str "AttributeValue", .str (attribute_value.getD ""))]])]
    else base
  removeNullValues ps

/-- The `query_params` echo returned by `lookup_events` (built directly from
the local variables, with no null stripping). -/
structure LookupQueryParams where
  start_time : String
  end_time : String
  attribute_key : Option String
  attribute_value : Option String
  max_results : Int
  region : String

/-- The `query_params` value of the `lookup_events` response. -/
def lookupQueryParams (start_dt end_dt : PyDateTime)
    (attribute_key attribute_value : Option String) (max_results : Option Int)
    (region : String) : LookupQueryParams :=
  ⟨isoformat start_dt, isoformat end_dt, attribute_key, attribute_value,
   validate_max_results max_results 10 50, region⟩

/-! ## Tool facade: `list_event_data_stores` -/

/-- Processing of one store record by `list_event_data_stores`.
`EventDataStore.model_validate(store).model_dump()` (the pydantic model from
`models.py`, not under `src/`) is modelled from the spec as the identity on
an already-normalized snake_case field map. When details are requested and
the record has a truthy `event_data_store_arn`, one `get_event_data_store`
call is attempted: on success the three detail fields are merged in; on any
exception a warning `(store name, error)` is recorded and the record is left
summary-only. Null values are then stripped from the record. -/
def processStore (details : PyVal → Except String (List (String × PyVal)))
    (include_details : Bool) (store : List (String × PyVal)) :
    List (String × PyVal) × Option (PyVal × String) :=
  let fs := store
  let arn := sGetD fs "event_data_store_arn" .none
  if include_details && pyTruthy arn then
    match details arn with
    | .ok d =>
      (removeNullValues
        (sSet (sSet (sSet fs
          "advanced_event_selectors" (sGetD d "AdvancedEventSelectors" (.list [])))
          "multi_region_enabled" (sGetD d "MultiRegionEnabled" .none))
          "organization_enabled" (sGetD d "OrganizationEnabled" .none)),
       Option.none)
    | .error e => (removeNullValues fs, some (sGetD fs "name" .none, e))
  else (removeNullValues fs, Option.none)

/-- Shallow embedding of the per-store loop of `list_event_data_stores`:
every listed store contributes one formatted record, and the warnings logged
for failed detail fetches are collected in order. -/
def listEventDataStoresRun (details : PyVal → Except String (List (String × PyVal)))
    (include_details : Bool) (stores : List (List (String × PyVal))) :
    List (List (String × PyVal)) × List (PyVal × String) :=
  (stores.map (fun st => (processStore details include_details st).1),
   stores.filterMap (fun st => (processStore details include_details st).2))

/-! ## Theorems about the query poller -/

/-- When every status fetch is non-terminal, the poll loop runs its fuel
out, fetching one status and sleeping 2 units per iteration, and ends
holding the most recently fetched response. -/
theorem lakePollGo_nonterminal (statuses : Nat → StatusResponse)
    (h : ∀ n, isTerminalStatus (statuses n).queryStatus = false) :
    ∀ (fuel f s : Nat) (qs : String) (resp : StatusResponse),
      lakePollGo statuses fuel f s qs resp =
        ⟨f + fuel, s + 2 * fuel,
         if fuel = 0 then qs else (statuses (f + fuel - 1)).queryStatus,
         if fuel = 0 then resp else statuses (f + fuel - 1)⟩ := by
  intro fuel
  induction fuel with
  | zero => intro f s qs resp; simp [lakePollGo]
  | succ n ih =>
    intro f s qs resp
    rw [lakePollGo]
    simp only [h f, Bool.false_eq_true, if_false]
    rw [ih (f + 1) (s + 2)]
    cases n with
    | zero => simp
    | succ k =>
      have h1 : f + 1 + (k + 1) - 1 = f + (k + 1 + 1) - 1 := by omega
      have h2 : f + 1 + (k + 1) = f + (k + 1 + 1) := by omega
      have h3 : s + 2 + 2 * (k + 1) = s + 2 * (k + 1 + 1) := by omega
      simp [h1, h2, h3]

/-- C1: with the 2-unit poll interval and 300-unit maximum wait of
`lake_query`, if every status fetch returns a non-terminal status then the
poller performs exactly 150 status fetches, issues no result fetch, and the
returned `QueryResult` carries the last observed non-terminal status (the
function returns normally rather than raising). -/
theorem c1_lake_query_budget_exhaustion (query_id : String)
    (statuses : Nat → StatusResponse) (results : ResultsResponse)
    (h : ∀ n, isTerminalStatus (statuses n).queryStatus = false) :
    (lakeQueryRun query_id statuses results).1.statusFetches = 150 ∧
    (lakeQueryRun query_id statuses results).1.resultFetches = [] ∧
    (lakeQueryRun query_id statuses results).2.query_status = (statuses 149).queryStatus ∧
    isTerminalStatus (lakeQueryRun query_id statuses results).2.query_status = false := by
  have hp := lakePollGo_nonterminal statuses h 150 0 0 "RUNNING" ⟨"", Option.none, Option.none⟩
  have hnf : ¬((statuses 149).queryStatus = "FINISHED") := by
    intro hc
    have h149 := h 149
    rw [hc] at h149
    simp [isTerminalStatus] at h149
  unfold lakeQueryRun lakeQueryPoll
  rw [hp]
  norm_num
  rw [if_neg hnf]
  exact ⟨rfl, rfl, rfl, h 149⟩

/-- Witness for C1: a constant `RUNNING` status sequence. -/
def c1ConstStatuses : Nat → StatusResponse :=
  fun _ => ⟨"RUNNING", Option.none, Option.none⟩

/-- Witness for C1 at the constant `RUNNING` status sequence. -/
theorem c1_lake_query_budget_exhaustion_witness :
    (lakeQueryRun "qid" c1ConstStatuses ⟨Option.none, Option.none⟩).1.statusFetches = 150 ∧
    (lakeQueryRun "qid" c1ConstStatuses ⟨Option.none, Option.none⟩).1.resultFetches = [] ∧
    (lakeQueryRun "qid" c1ConstStatuses ⟨Option.none, Option.none⟩).2.query_status =
      (c1ConstStatuses 149).queryStatus ∧
    isTerminalStatus (lakeQueryRun "qid" c1ConstStatuses ⟨Option.none, Option.none⟩).2.query_status
      = false :=
  c1_lake_query_budget_exhaustion "qid" c1ConstStatuses ⟨Option.none, Option.none⟩
    (fun _ => rfl)

/-- The status sequence `[QUEUED, RUNNING, FINISHED]` of C2 (any fetch past
the third would see `FINISHED`, but the loop never gets there). -/
def c2Statuses : Nat → StatusResponse :=
  fun n => ⟨["QUEUED", "RUNNING", "FINISHED"].getD n "FINISHED", Option.none, Option.none⟩

/-- C2: on the status sequence `[QUEUED, RUNNING, FINISHED]`, `lake_query`
issues exactly 3 status fetches, then exactly one result fetch with
`MaxQueryResults = 1000`; the accumulated sleep time is at least 4 and less
than 6 units, and the loop stopped on the first terminal status observed. -/
theorem c2_lake_query_three_polls_then_fetch :
    (lakeQueryRun "qid" c2Statuses ⟨some [], Option.none⟩).1.statusFetches = 3 ∧
    (lakeQueryRun "qid" c2Statuses ⟨some [], Option.none⟩).1.resultFetches = [1000] ∧
    4 ≤ (lakeQueryRun "qid" c2Statuses ⟨some [], Option.none⟩).1.sleptTime ∧
    (lakeQueryRun "qid" c2Statuses ⟨some [], Option.none⟩).1.sleptTime < 6 ∧
    (lakeQueryRun "qid" c2Statuses ⟨some [], Option.none⟩).2.query_status = "FINISHED" := by
  decide

/-! ## Theorems about `_format_field_value` -/

/-- C5: a string whose lowercased-and-stripped form is `true` or `false` is
normalized to the corresponding boolean by the first detection rule; no
later rule (null, timestamp, numeric) applies. -/
theorem c5_boolean_rule_first (s : String) :
    (pyValueLower s = "true" → formatFieldValue (.str s) = .bool true) ∧
    (pyValueLower s = "false" → formatFieldValue (.str s) = .bool false) := by
  constructor <;> intro h <;> simp [formatFieldValue, h]

/-- Witness for C5 at the string `" FaLsE "`. -/
theorem c5_boolean_rule_first_witness :
    formatFieldValue (.str " FaLsE ") = .bool false :=
  (c5_boolean_rule_first " FaLsE ").2 (by decide)

/-- C6: for a string at least 19 characters long containing a `T` anywhere
or a `-` within the first 10 characters, and matched by neither the boolean
nor the null rule, `_format_field_value` attempts the ISO-8601 parse on the
string with `Z` replaced by `+00:00`; on success it returns the re-rendered
canonical ISO string, on failure it falls through to the numeric rule. -/
theorem c6_timestamp_rule (s : String)
    (h1 : ¬(pyValueLower s = "true" ∨ pyValueLower s = "false"))
    (h2 : ¬(pyValueLower s = "null" ∨ pyValueLower s = "none" ∨ pyValueLower s = ""))
    (h3 : 19 ≤ s.length)
    (h4 : pyContains s 'T' = true ∨ pyContains (pyTake s 10) '-' = true) :
    formatFieldValue (.str s) =
      match parseIso (pyReplaceZ s) with
      | some dt => .str (isoformat dt)
      | Option.none => numericRule s (pyValueLower s) := by
  simp only [formatFieldValue]
  rw [if_neg h1, if_neg h2, if_pos ⟨h3, h4⟩]

/-- Witness for C6 at the timestamp string `2023-05-17T10:30:00Z`. -/
theorem c6_timestamp_rule_witness :
    formatFieldValue (.str "2023-05-17T10:30:00Z") =
      (match parseIso (pyReplaceZ "2023-05-17T10:30:00Z") with
       | some dt => PyVal.str (isoformat dt)
       | Option.none => numericRule "2023-05-17T10:30:00Z" (pyValueLower "2023-05-17T10:30:00Z")) :=
  c6_timestamp_rule "2023-05-17T10:30:00Z" (by decide) (by decide) (by decide) (by decide)

/-- C7: a string reaching the numeric rule (no boolean/null match, and the
timestamp rule either not triggered or failing to parse) is parsed as an
integer when it contains neither a dot nor an `e`/`E` (checked on the
lowercased form), and as a float otherwise; when the chosen parse fails the
original string is returned unchanged. -/
theorem c7_numeric_rule (s : String)
    (h1 : ¬(pyValueLower s = "true" ∨ pyValueLower s = "false"))
    (h2 : ¬(pyValueLower s = "null" ∨ pyValueLower s = "none" ∨ pyValueLower s = ""))
    (h3 : (19 ≤ s.length ∧ (pyContains s 'T' = true ∨ pyContains (pyTake s 10) '-' = true)) →
      parseIso (pyReplaceZ s) = Option.none) :
    formatFieldValue (.str s) = numericRule s (pyValueLower s) ∧
    numericRule s (pyValueLower s) =
      (if pyContains s '.' = false ∧ pyContains (pyValueLower s) 'e' = false then
        match pyIntOfString s with
        | some n => PyVal.int n
        | Option.none => PyVal.str s
      else
        match pyFloatOfString s with
        | some q => PyVal.float q
        | Option.none => PyVal.str s) := by
  refine ⟨?_, rfl⟩
  simp only [formatFieldValue]
  rw [if_neg h1, if_neg h2]
  by_cases hg : 19 ≤ s.length ∧ (pyContains s 'T' = true ∨ pyContains (pyTake s 10) '-' = true)
  · rw [if_pos hg, h3 hg]
  · rw [if_neg hg]

/-- Witness for C7 at the string `"42"`. -/
theorem c7_numeric_rule_witness :
    formatFieldValue (.str "42") = numericRule "42" (pyValueLower "42") ∧
    numericRule "42" (pyValueLower "42") =
      (if pyContains "42" '.' = false ∧ pyContains (pyValueLower "42") 'e' = false then
        match pyIntOfString "42" with
        | some n => PyVal.int n
        | Option.none => PyVal.str "42"
      else
        match pyFloatOfString "42" with
        | some q => PyVal.float q
        | Option.none => PyVal.str "42") :=
  c7_numeric_rule "42" (by decide) (by decide) (fun hg => absurd hg.1 (by decide))

/-! ## Theorems about `_process_query_results` -/

/-- Whether normalization returned without raising. -/
def exceptOk : Except String PyVal → Bool
  | .ok _ => true
  | .error _ => false

/-- Assigning into a dictionary never leaves it empty. -/
theorem dictSet_not_empty (kvs : List (PyVal × PyVal)) (k v : PyVal) :
    (dictSet kvs k v).isEmpty = false := by
  cases kvs with
  | nil => rfl
  | cons kv rest =>
    unfold dictSet
    split <;> rfl

/-- The inner descriptor loop never raises when every kept descriptor has a
hashable field name, and its result is empty exactly when it started empty
and kept no descriptor. -/
theorem processRowGo_ok (items : List PyVal) :
    ∀ acc, items.all hashOKDescr = true →
      ∃ pr, processRowGo acc items = .ok pr ∧
        (pr.isEmpty = true ↔ (acc.isEmpty = true ∧ ∀ fi ∈ items, keptDescr fi = false)) := by
  induction items with
  | nil => intro acc _; exact ⟨acc, rfl, by simp⟩
  | cons fi rest ih =>
    intro acc h
    rw [List.all_cons, Bool.and_eq_true] at h
    obtain ⟨hfi, hrest⟩ := h
    by_cases hk : keptDescr fi = true
    · have hh : pyIsHashable (descrFieldName fi) = true := by
        unfold hashOKDescr at hfi
        rw [hk] at hfi
        simpa using hfi
      obtain ⟨pr, hpr, hiff⟩ :=
        ih (dictSet acc (descrFieldName fi) (formatFieldValue (descrValue fi))) hrest
      refine ⟨pr, ?_, ?_⟩
      · simp only [processRowGo, hk, hh, if_true]
        exact hpr
      · rw [hiff]
        have hne := dictSet_not_empty acc (descrFieldName fi) (formatFieldValue (descrValue fi))
        simp [hne, hk, List.forall_mem_cons]
    · have hk' : keptDescr fi = false := by revert hk; cases keptDescr fi <;> simp
      obtain ⟨pr, hpr, hiff⟩ := ih acc hrest
      refine ⟨pr, ?_, ?_⟩
      · simp only [processRowGo, hk', Bool.false_eq_true, if_false]
        exact hpr
      · rw [hiff]
        simp [List.forall_mem_cons, hk']

/-- The outer row loop never raises when every list row satisfies the
hashable-field-name condition. -/
theorem processRowsGo_ok (rows : List PyVal) :
    ∀ acc, rows.all hashOKRow = true → ∃ out, processRowsGo acc rows = .ok out := by
  induction rows with
  | nil => intro acc _; exact ⟨acc, rfl⟩
  | cons row rest ih =>
    intro acc h
    rw [List.all_cons, Bool.and_eq_true] at h
    obtain ⟨hrow, hrest⟩ := h
    cases row with
    | list items =>
      by_cases hemp : items.isEmpty = true
      · obtain ⟨out, hout⟩ := ih acc hrest
        exact ⟨out, by simp only [processRowsGo, hemp, if_true]; exact hout⟩
      · have hitems : items.all hashOKDescr = true := by simpa [hashOKRow] using hrow
        obtain ⟨pr, hpr, _⟩ := processRowGo_ok items [] hitems
        obtain ⟨out, hout⟩ := ih (if pr.isEmpty then acc else acc ++ [.dict pr]) hrest
        refine ⟨out, ?_⟩
        simp only [processRowsGo, hemp, Bool.false_eq_true, if_false, hpr]
        exact hout
    | none => exact (ih acc hrest).imp (fun out hout => by simpa [processRowsGo] using hout)
    | bool b => exact (ih acc hrest).imp (fun out hout => by simpa [processRowsGo] using hout)
    | int n => exact (ih acc hrest).imp (fun out hout => by simpa [processRowsGo] using hout)
    | float q => exact (ih acc hrest).imp (fun out hout => by simpa [processRowsGo] using hout)
    | str s => exact (ih acc hrest).imp (fun out hout => by simpa [processRowsGo] using hout)
    | datetime dt => exact (ih acc hrest).imp (fun out hout => by simpa [processRowsGo] using hout)
    | dict kvs => exact (ih acc hrest).imp (fun out hout => by simpa [processRowsGo] using hout)

/-- C3 counterexample: normalization can raise. A truthy non-iterable grid
(the integer `1`) raises `TypeError` at the `for row in raw_results` loop,
and a grid whose kept descriptor carries an unhashable (list) field name
raises `TypeError` at the `processed_row[field_name]` assignment. -/
theorem c3_normalization_raises_counterexample :
    processQueryResults (.int 1) = .error "TypeError: not iterable" ∧
    processQueryResults
        (.list [.list [.dict [(.str "field", .list []), (.str "value", .int 0)]]]) =
      .error "TypeError: unhashable type" := by
  exact ⟨rfl, rfl⟩

/-- C3 (amended): for every grid that is a list of rows whose kept field
descriptors carry hashable field names (strings, per the declared type
`List[List[Dict[str, Any]]]`), normalization never raises: rows that are not
lists or are empty are skipped, and field descriptors failing the
keep-condition are skipped, without any failure propagating. -/
theorem c3_normalization_never_raises (rows : List PyVal)
    (h : rows.all hashOKRow = true) :
    exceptOk (processQueryResults (.list rows)) = true := by
  unfold processQueryResults
  by_cases hemp : rows.isEmpty = true
  · simp [pyTruthy, hemp, exceptOk]
  · have ht : pyTruthy (.list rows) = true := by simp [pyTruthy, hemp]
    rw [ht]
    obtain ⟨out, hout⟩ := processRowsGo_ok rows [] h
    simp [pyIter, hout, exceptOk]

/-- A witness grid for C3: a non-list row, an empty row, a string row, and a
row mixing a malformed descriptor with a well-formed one. -/
def c3WitnessRows : List PyVal :=
  [.int 5, .list [], .str "ab",
   .list [.dict [(.str "field", .str "a")],
          .dict [(.str "field", .str "n"), (.str "value", .str "42")]]]

/-- Witness for C3 (amended) at `c3WitnessRows`. -/
theorem c3_normalization_never_raises_witness :
    c3WitnessRows.all hashOKRow = true ∧
    exceptOk (processQueryResults (.list c3WitnessRows)) = true :=
  ⟨by decide, c3_normalization_never_raises c3WitnessRows (by decide)⟩

/-- C4 counterexample: a descriptor carrying the field-name key but not the
value key is skipped by the code (the keep-condition requires both keys), so
the single-row grid built from it produces no output row — the claim
predicted the descriptor would be kept. -/
theorem c4_single_key_descriptor_counterexample :
    dictHasKey [(.str "field", .str "a")] (.str "field") = true ∧
    processQueryResults (.list [.list [.dict [(.str "field", .str "a")]]]) =
      .ok (.list []) := by
  exact ⟨rfl, rfl⟩

/-- C4 (amended): a field descriptor is kept exactly when it is a dict
carrying both the field-name key and the value key (`keptDescr`); lacking
either key, or not being a dict, skips that single descriptor. Consequently
a one-row grid normalizes to the empty output exactly when the row keeps no
descriptor, and contributes a (possibly partial) output row as soon as one
descriptor is kept. -/
theorem c4_row_contributes_iff_kept_descriptor (items : List PyVal)
    (h : items.all hashOKDescr = true) :
    (processQueryResults (.list [.list items]) = .ok (.list []) ↔
      ∀ fi ∈ items, keptDescr fi = false) := by
  by_cases hemp : items.isEmpty = true
  · have hnil : items = [] := by cases items <;> simp_all
    subst hnil
    simp [processQueryResults, pyTruthy, pyIter, processRowsGo]
  · obtain ⟨pr, hpr, hiff⟩ := processRowGo_ok items [] h
    have hrun : processQueryResults (.list [.list items]) =
        .ok (.list (if pr.isEmpty then [] else [.dict pr])) := by
      simp only [processQueryResults, pyTruthy]
      norm_num
      simp only [pyIter, processRowsGo, hemp, Bool.false_eq_true, if_false, hpr,
        List.nil_append]
    rw [hrun]
    by_cases hp : pr.isEmpty = true
    · simp only [hp, if_true]
      constructor
      · intro _
        exact (hiff.mp hp).2
      · intro _
        trivial
    · simp only [hp, Bool.false_eq_true, if_false, List.nil_append]
      constructor
      · intro hcontra
        simp at hcontra
      · intro hall
        exact absurd (hiff.mpr ⟨rfl, hall⟩) hp

/-- A witness row for C4: one skipped single-key descriptor and one kept
two-key descriptor. -/
def c4WitnessItems : List PyVal :=
  [.dict [(.str "field", .str "a")],
   .dict [(.str "field", .str "b"), (.str "value", .int 7)]]

/-- Witness for C4 (amended) at `c4WitnessItems`. -/
theorem c4_row_contributes_iff_kept_descriptor_witness :
    c4WitnessItems.all hashOKDescr = true ∧
    (processQueryResults (.list [.list c4WitnessItems]) = .ok (.list []) ↔
      ∀ fi ∈ c4WitnessItems, keptDescr fi = false) :=
  ⟨by decide, c4_row_contributes_iff_kept_descriptor c4WitnessItems (by decide)⟩

/-! ## Theorems about `lookup_events` and `list_event_data_stores` -/

/-- C8: `lookup_events` clamps the requested result count into `[1, 50]`
(default 10 when absent) and uses the clamped value both as the `MaxResults`
request parameter and in the `query_params` echo; in particular a request of
0 clamps to 1 and a request of 75 clamps to 50. -/
theorem c8_max_results_clamped (st et : PyDateTime) (ak av : Option String)
    (mr : Option Int) (region : String) :
    sGet (lookupRequest st et ak av mr) "MaxResults" =
      some (.int (validate_max_results mr 10 50)) ∧
    (lookupQueryParams st et ak av mr region).max_results = validate_max_results mr 10 50 ∧
    validate_max_results (some 0) 10 50 = 1 ∧
    validate_max_results (some 75) 10 50 = 50 ∧
    validate_max_results Option.none 10 50 = 10 ∧
    (∀ v : Int, 1 ≤ validate_max_results (some v) 10 50 ∧
      validate_max_results (some v) 10 50 ≤ 50) := by
  refine ⟨?_, rfl, by decide, by decide, rfl, ?_⟩
  · simp only [lookupRequest]
    split <;> rfl
  · intro v
    unfold validate_max_results
    constructor
    · exact le_min (le_max_right v 1) (by norm_num)
    · exact min_le_right _ _

/-- C10: the remote request of `lookup_events` carries a `LookupAttributes`
filter exactly when both `attribute_key` and `attribute_value` are provided
and nonempty; with only one of the two provided no filter is sent, while
both parameters are still echoed unchanged in `query_params`. -/
theorem c10_lookup_attributes_iff_both_provided (st et : PyDateTime)
    (ak av : Option String) (mr : Option Int) (region : String) :
    (("LookupAttributes" ∈ (lookupRequest st et ak av mr).map Prod.fst) ↔
      (pyTruthyOptStr ak = true ∧ pyTruthyOptStr av = true)) ∧
    (lookupQueryParams st et ak av mr region).attribute_key = ak ∧
    (lookupQueryParams st et ak av mr region).attribute_value = av := by
  refine ⟨?_, rfl, rfl⟩
  have hreq : lookupRequest st et ak av mr =
      (if pyTruthyOptStr ak && pyTruthyOptStr av then
        [("StartTime", PyVal.datetime st), ("EndTime", PyVal.datetime et),
         ("MaxResults", PyVal.int (validate_max_results mr 10 50)),
         ("LookupAttributes",
           PyVal.list [PyVal.dict [(.str "AttributeKey", .str (ak.getD "")),
                                   (.str "AttributeValue", .str (av.getD ""))]])]
      else
        [("StartTime", PyVal.datetime st), ("EndTime", PyVal.datetime et),
         ("MaxResults", PyVal.int (validate_max_results mr 10 50))]) := by
    simp only [lookupRequest]
    split <;> rfl
  rw [hreq]
  cases hak : pyTruthyOptStr ak <;> cases hav : pyTruthyOptStr av <;> simp

/-- C9: in `list_event_data_stores` with details requested, a failure of one
store's `get_event_data_store` call only degrades that store's record to
summary-only (no merge of the three detail fields — the record is exactly
the null-stripped summary) and logs a warning naming that store; the listing
is not aborted and every listed store still contributes one output record. -/
theorem c9_detail_failure_degrades_one_store
    (stores : List (List (String × PyVal)))
    (details : PyVal → Except String (List (String × PyVal)))
    (i : Nat) (hi : i < stores.length) (e : String)
    (harn : pyTruthy (sGetD (stores.get ⟨i, hi⟩) "event_data_store_arn" .none) = true)
    (hfail : details (sGetD (stores.get ⟨i, hi⟩) "event_data_store_arn" .none) = .error e) :
    (listEventDataStoresRun details true stores).1.length = stores.length ∧
    ((listEventDataStoresRun details true stores).1)[i]? =
      some (removeNullValues (stores.get ⟨i, hi⟩)) ∧
    (sGetD (stores.get ⟨i, hi⟩) "name" .none, e) ∈
      (listEventDataStoresRun details true stores).2 := by
  have hstore : processStore details true (stores.get ⟨i, hi⟩) =
      (removeNullValues (stores.get ⟨i, hi⟩),
       some (sGetD (stores.get ⟨i, hi⟩) "name" .none, e)) := by
    simp only [processStore, harn, Bool.true_and, if_true, hfail]
  refine ⟨?_, ?_, ?_⟩
  · simp [listEventDataStoresRun]
  · simp only [listEventDataStoresRun]
    rw [List.getElem?_map, List.getElem?_eq_getElem hi]
    simp only [List.get_eq_getElem] at hstore
    simp [hstore]
  · simp only [listEventDataStoresRun]
    refine List.mem_filterMap.mpr ⟨stores.get ⟨i, hi⟩, List.get_mem stores i hi, ?_⟩
    rw [hstore]

/-- Witness stores for C9: two stores with distinct ARNs. -/
def c9WitnessStores : List (List (String × PyVal)) :=
  [[("name", .str "s1"), ("event_data_store_arn", .str "arn1")],
   [("name", .str "s2"), ("event_data_store_arn", .str "arn2")]]

/-- Witness detail fetcher for C9: fails on the first store's ARN only. -/
def c9WitnessDetails : PyVal → Except String (List (String × PyVal)) :=
  fun a =>
    match a with
    | .str "arn1" => .error "boom"
    | _ => .ok [("MultiRegionEnabled", .bool true)]

/-- Witness for C9 at `c9WitnessStores` with the detail fetch failing for
the first store. -/
theorem c9_detail_failure_degrades_one_store_witness :
    (listEventDataStoresRun c9WitnessDetails true c9WitnessStores).1.length =
      c9WitnessStores.length ∧
    ((listEventDataStoresRun c9WitnessDetails true c9WitnessStores).1)[0]? =
      some (removeNullValues (c9WitnessStores.get ⟨0, by decide⟩)) ∧
    (sGetD (c9WitnessStores.get ⟨0, by decide⟩) "name" .none, "boom") ∈
      (listEventDataStoresRun c9WitnessDetails true c9WitnessStores).2 :=
  c9_detail_failure_degrades_one_store c9WitnessStores c9WitnessDetails 0 (by decide)
    "boom" (by rfl) (by rfl)
